import Mathlib

/-!
Shallow embedding of the repository `hyperbolic` (files
`quadratic_rational.py`, `tiling.py`, `create_tiles.py`).

Conventions of the embedding:

* numpy tensors of shape `(2,)*n` are modelled as flat lists of length
  `2^n` in C (row-major) order; `ndim = 0` corresponds to a list of
  length 1.
* Python `int` is `ℤ`; `//` and `%` are floor division and floor
  modulus (`Int.fdiv`, `Int.fmod`), which also agree with numpy's
  integer `//` (numpy integer division by zero yields 0 with a runtime
  warning, not an exception, matching `Int.fdiv _ 0 = 0`; a plain
  Python `int // 0` raises `ZeroDivisionError` and is modelled
  explicitly at its single occurrence).
* `np.gcd` is `Int.gcd` (non-negative).
* Python exceptions are modelled by `Except PyErr`; each `assert` of
  the source is an explicit `assertionError` check.
* unbounded `while` loops are modelled with an explicit fuel argument
  that is large enough for every run appearing in this file; running
  out of fuel is a distinguished error that never occurs in the
  verified computations.
* Python 3 hashability: a class that defines `__eq__` without
  `__hash__` is unhashable.  `QuadraticRational` is such a class, so
  hashing a `Point`, `Edge` or `Tile` — whose `__hash__` methods hash
  `QuadraticRational` components — raises `TypeError`, and so does
  every dictionary or set operation keyed by one of them (the key is
  hashed before any equality comparison, even on an empty dictionary).
  The tiling-graph layer is therefore modelled twice: faithfully
  (aborting with `TypeError` exactly where the source does) and, under
  `...Spec` names marked `Modelled from the spec:`, with the
  value-keyed canonical tables the specification describes.
-/

namespace Hyperbolic

/-- Python exception kinds that the embedded code can raise. -/
inductive PyErr where
  | assertionError
  | zeroDivisionError
  | typeError
  | attributeError
  | keyError
  | indexError
  | nonTermination
  deriving DecidableEq, Repr

/-- Result of running embedded Python code. -/
abbrev Res (α : Type) : Type := Except PyErr α

/-- Ascending insertion of an integer into a sorted list
(used to model Python `sorted`). -/
def insertAsc (a : ℤ) : List ℤ → List ℤ
  | [] => [a]
  | b :: l => if a ≤ b then a :: b :: l else b :: insertAsc a l

/-- Python `sorted` on a list of integers (ascending). -/
def sortInts (l : List ℤ) : List ℤ := l.foldr insertAsc []

/-- One step of `QuadraticIntegerMeta._get_products_from_numbers`:
if `number` already occurs in the products tensor it is skipped,
otherwise the tensor gains a new leading axis whose second half is the
old products multiplied by `number` and divided by the squared
elementwise gcd (`products[1] //= gcd ** 2`). -/
def productsStep (products : List ℤ) (number : ℤ) : List ℤ :=
  if products.contains number then products
  else products ++ products.map (fun p =>
    (p * number).fdiv ((Int.gcd p number : ℤ) * (Int.gcd p number : ℤ)))

/-- Model of `QuadraticIntegerMeta._get_products_from_numbers`: fold the sorted
numbers into the products tensor, starting from the 0-dim tensor `1`. -/
def getProducts (numbers : List ℤ) : List ℤ :=
  (sortInts numbers).foldl productsStep [1]

/-- Model of `QuadraticIntegerMeta.__getitem__` computes the products tensor
twice: once from the given numbers and once from the flattened result
(this re-sorts the generated entries). The resulting tensor is the
`__products__` attribute of the class `QuadraticInteger[numbers]`. -/
def mkProducts (numbers : List ℤ) : List ℤ :=
  getProducts (getProducts numbers)

/-- Model of `QuadraticInteger`: a coefficient tensor over the products tensor
of its (metaclass-generated) class; both are stored flattened. -/
structure QuadraticInteger where
  products : List ℤ
  coefficients : List ℤ
  deriving DecidableEq, Repr

/-- Model of `QuadraticInteger.__init__`: the constructor asserts
`coefficients.shape == self.__products__.shape`, which for tensors of
shape `(2,)*n` is equivalent to equality of flattened lengths. -/
def QImk (products coefficients : List ℤ) : Res QuadraticInteger :=
  if coefficients.length = products.length then
    .ok ⟨products, coefficients⟩
  else
    .error .assertionError

/-- Model of `QuadraticInteger.convert` on a plain integer: the base class has
the 0-dim products tensor `1`. -/
def QIconvert (n : ℤ) : QuadraticInteger := ⟨[1], [n]⟩

/-- Model of `QuadraticInteger.__eq__` (after `convert`): `np.all` equality of
the products tensors and of the coefficient tensors. -/
def QIbeq (a b : QuadraticInteger) : Bool :=
  a.products == b.products && a.coefficients == b.coefficients

/-- Model of `QuadraticInteger.rebase`: re-express the element in the basis of
`QuadraticInteger[numbers]`.  The new coefficient at position `i` is
the sum of the old coefficients at positions whose product equals the
new product at `i`; the source asserts that every nonzero old
coefficient finds at least one matching new product. -/
def QIrebase (x : QuadraticInteger) (numbers : List ℤ) : Res QuadraticInteger :=
  let newProducts := mkProducts numbers
  if ((x.products.zip x.coefficients).all
      (fun pc => pc.2 == 0 || newProducts.contains pc.1)) then
    QImk newProducts
      (newProducts.map (fun np =>
        ((x.products.zip x.coefficients).map
          (fun pc => if pc.1 == np then pc.2 else 0)).sum))
  else
    .error .assertionError

/-- Model of `QuadraticInteger.reduce`: rebase to the products whose
coefficients are nonzero (`self.__products__[self.coefficients != 0]`). -/
def QIreduce (x : QuadraticInteger) : Res QuadraticInteger :=
  QIrebase x (((x.products.zip x.coefficients).filter (fun pc => !(pc.2 == 0))).map
    (fun pc => pc.1))

/-- Model of `QuadraticInteger.__neg__`. -/
def QIneg (x : QuadraticInteger) : QuadraticInteger :=
  ⟨x.products, x.coefficients.map (fun c => -c)⟩

/-- Model of `QuadraticInteger.__add__` (also `__radd__` after `convert`). -/
def QIadd (a b : QuadraticInteger) : Res QuadraticInteger := do
  let newNumbers := a.products ++ b.products
  let s1 ← QIrebase a newNumbers
  let s2 ← QIrebase b newNumbers
  let s ← QImk s1.products (List.zipWith (fun c d => c + d) s1.coefficients s2.coefficients)
  QIreduce s

/-- Model of `QuadraticInteger.__sub__`. -/
def QIsub (a b : QuadraticInteger) : Res QuadraticInteger :=
  QIadd a (QIneg b)

/-- Model of `QuadraticInteger.__mul__` (also `__rmul__` after `convert`): both
factors are rebased to the concatenated numbers; the coefficient of
the result at product `p0` accumulates, over all pairs of products of
the two factors, the gcd-coefficient `g = gcd(p1, p2)` whenever
`p0 == p1 * p2 // g**2`. -/
def QImul (a b : QuadraticInteger) : Res QuadraticInteger := do
  let newNumbers := a.products ++ b.products
  let f1 ← QIrebase a newNumbers
  let f2 ← QIrebase b newNumbers
  let P := f1.products
  let r ← QImk P (P.map (fun p0 =>
    ((P.zip f1.coefficients).map (fun q1 =>
      ((P.zip f2.coefficients).map (fun q2 =>
        let g : ℤ := (Int.gcd q1.1 q2.1 : ℤ)
        if p0 == (q1.1 * q2.1).fdiv (g * g) then g * q1.2 * q2.2 else 0)).sum)).sum))
  QIreduce r

/-- Model of `QuadraticInteger.as_int`: asserts the products tensor is 0-dim
(flattened length 1) and returns the single coefficient. -/
def QIasInt (x : QuadraticInteger) : Res ℤ :=
  if x.products.length = 1 then .ok (x.coefficients.headD 0) else .error .assertionError

/-- A Python value that is either a plain `int` or a
`QuadraticInteger` (the two admissible numerator/denominator types of
`QuadraticRational.__init__`). -/
inductive IntOrQI where
  | int (n : ℤ)
  | qi (x : QuadraticInteger)
  deriving DecidableEq, Repr

/-- Multiplication of an `int`-or-`QuadraticInteger` by a
`QuadraticInteger` (`*` dispatches to `QuadraticInteger.__mul__` or
`__rmul__`, both of which `convert` the plain integer first). -/
def IntOrQI.mulQI (a : IntOrQI) (b : QuadraticInteger) : Res QuadraticInteger :=
  match a with
  | .int n => QImul (QIconvert n) b
  | .qi x => QImul x b

/-- Model of `QuadraticRational`: canonical numerator (a `QuadraticInteger`)
over a plain integer denominator. -/
structure QuadraticRational where
  numerator : QuadraticInteger
  denominator : ℤ
  deriving DecidableEq, Repr

/-- The coefficient negation `denominator.coefficients * np.array([1, -1])`
used by the rationalization loop of `QuadraticRational.__init__`:
`[1, -1]` broadcasts along the last tensor axis, which in flattened
C order negates the entries at odd positions. -/
def negOdd (l : List ℤ) : List ℤ :=
  (l.enum.map (fun ic => if ic.1 % 2 = 1 then -ic.2 else ic.2))

/-- The `while denominator.__products__.ndim > 0` loop of
`QuadraticRational.__init__`: repeatedly multiply numerator and
denominator by the conjugate factor until the denominator is 0-dim,
then take `as_int`.  The loop is given fuel; in every run in this
file the denominator loses at least one tensor axis per iteration, so
the initial fuel `den.products.length` is ample. -/
def rationalizeLoop : ℕ → IntOrQI → QuadraticInteger → Res (IntOrQI × ℤ)
  | fuel + 1, num, den =>
    if den.products.length ≤ 1 then do
      let d ← QIasInt den
      .ok (num, d)
    else do
      let factor : QuadraticInteger := ⟨den.products, negOdd den.coefficients⟩
      let num2 ← num.mulQI factor
      let den2 ← QImul den factor
      rationalizeLoop fuel (.qi num2) den2
  | 0, _, _ => .error .nonTermination

/-- The `while numerator_gcd.ndim > 0` loop of
`QuadraticRational._reduce_fraction`: iterated elementwise gcd of the
two halves along the leading axis, ending in the single entry of the
0-dim tensor (note that this final entry is a plain coefficient and
may be negative when `ndim` was 0 to begin with). -/
def gcdHalves : ℕ → List ℤ → ℤ
  | _, [] => 0
  | fuel + 1, l =>
    if l.length ≤ 1 then l.headD 0
    else
      gcdHalves fuel
        (List.zipWith (fun a b => (Int.gcd a b : ℤ))
          (l.take (l.length / 2)) (l.drop (l.length / 2)))
  | 0, l => l.headD 0

/-- Model of `QuadraticRational._reduce_fraction`: divide the numerator
coefficients and the denominator by
`factor = gcd(gcd-of-numerator-coefficients, denominator)`.
The numpy division `coefficients //= factor` yields zeros (with a
runtime warning) when `factor = 0`, but the subsequent plain-integer
`denominator //= factor` raises `ZeroDivisionError`. -/
def reduceFraction (num : QuadraticInteger) (den : ℤ) : Res QuadraticRational :=
  let numeratorGcd := gcdHalves num.coefficients.length num.coefficients
  let factor : ℤ := (Int.gcd numeratorGcd den : ℤ)
  if factor = 0 then .error .zeroDivisionError
  else
    .ok ⟨⟨num.products, num.coefficients.map (fun c => c.fdiv factor)⟩, den.fdiv factor⟩

/-- Model of `QuadraticRational.__init__`: rationalize a `QuadraticInteger`
denominator by conjugate factors, normalize the sign of the
denominator, `convert` the numerator and reduce the fraction. -/
def QRmk (numerator denominator : IntOrQI) : Res QuadraticRational := do
  let (num1, den1) ←
    match denominator with
    | .qi d => rationalizeLoop (d.products.length + 1) numerator d
    | .int d => .ok (numerator, d)
  let (num2, den2) :=
    if den1 < 0 then
      (match num1 with
       | .int n => IntOrQI.int (-n)
       | .qi x => IntOrQI.qi (QIneg x), -den1)
    else (num1, den1)
  let num3 :=
    match num2 with
    | .int n => QIconvert n
    | .qi x => x
  reduceFraction num3 den2

/-- Model of `QuadraticRational.convert` on an `int` or `QuadraticInteger`
(on a `QuadraticRational` it is the identity). -/
def QRconvert (n : IntOrQI) : Res QuadraticRational := QRmk n (.int 1)

/-- Model of `QuadraticRational.__neg__`. -/
def QRneg (a : QuadraticRational) : Res QuadraticRational :=
  QRmk (.qi (QIneg a.numerator)) (.int a.denominator)

/-- Model of `QuadraticRational.__add__` (after `convert`):
`(a.num * b.den + b.num * a.den) / (a.den * b.den)`. -/
def QRadd (a b : QuadraticRational) : Res QuadraticRational := do
  let t1 ← QImul a.numerator (QIconvert b.denominator)
  let t2 ← QImul b.numerator (QIconvert a.denominator)
  let num ← QIadd t1 t2
  QRmk (.qi num) (.int (a.denominator * b.denominator))

/-- Model of `QuadraticRational.__sub__`: `self + (-other)`. -/
def QRsub (a b : QuadraticRational) : Res QuadraticRational := do
  let nb ← QRneg b
  QRadd a nb

/-- Model of `QuadraticRational.__mul__` (after `convert`). -/
def QRmul (a b : QuadraticRational) : Res QuadraticRational := do
  let num ← QImul a.numerator b.numerator
  QRmk (.qi num) (.int (a.denominator * b.denominator))

/-- A Python value admissible as the right operand of
`QuadraticRational.__truediv__`. -/
inductive DivArg where
  | int (n : ℤ)
  | qi (x : QuadraticInteger)
  | qr (a : QuadraticRational)
  deriving DecidableEq, Repr

/-- Model of `QuadraticRational.__truediv__`.  A plain-`int` divisor is passed
to `QuadraticInteger.from_int`, a method that is defined nowhere in
the repository, so that branch raises `AttributeError`.  A
`QuadraticInteger` divisor is wrapped as `QuadraticRational(other, 1)`.
Then `(self.num * other.den) / (self.den * other.num)` is constructed. -/
def QRdiv (a : QuadraticRational) (other : DivArg) : Res QuadraticRational := do
  match other with
  | .int _ => .error .attributeError
  | .qi x => do
      let o ← QRmk (.qi x) (.int 1)
      let num ← QImul a.numerator (QIconvert o.denominator)
      let den ← IntOrQI.mulQI (.int a.denominator) o.numerator
      QRmk (.qi num) (.qi den)
  | .qr o => do
      let num ← QImul a.numerator (QIconvert o.denominator)
      let den ← IntOrQI.mulQI (.int a.denominator) o.numerator
      QRmk (.qi num) (.qi den)

/-- Model of `QuadraticRational.__pow__` for non-negative exponents
(binary exponentiation on the halved exponent). -/
def QRpowNat : ℕ → QuadraticRational → ℕ → Res QuadraticRational
  | fuel + 1, a, n =>
    if n = 0 then QRconvert (.int 1)
    else do
      let h ← QRpowNat fuel a (n / 2)
      let hh ← QRmul h h
      if n % 2 = 0 then .ok hh else QRmul hh a
  | 0, _, _ => .error .nonTermination

/-- Model of `QuadraticRational.__pow__`: binary exponentiation; a negative
exponent inverts first (`1 / self ** -exponent`, i.e.
`convert(1) / (self ** -exponent)`). -/
def QRpow (a : QuadraticRational) (exponent : ℤ) : Res QuadraticRational :=
  if exponent < 0 then do
    let p ← QRpowNat (exponent.natAbs + 1) a exponent.natAbs
    let one ← QRconvert (.int 1)
    QRdiv one (.qr p)
  else
    QRpowNat (exponent.natAbs + 1) a exponent.natAbs

/-- Model of `QuadraticRational.__eq__` (after `convert`, which is the identity
on a `QuadraticRational` operand): structural comparison of canonical
numerator and denominator. -/
def QRbeq (a b : QuadraticRational) : Bool :=
  QIbeq a.numerator b.numerator && a.denominator == b.denominator

/-- The trial-division loops of the module-level `sqrt`: divide out
each square factor `n*n`, accumulating its root into `coefficient`. -/
def sqrtLoop : ℕ → ℤ → ℤ → ℤ → Res (ℤ × ℤ)
  | fuel + 1, n, number, coefficient =>
    if n * n ≤ number then
      if number.fmod (n * n) = 0 then
        sqrtLoop fuel n (number.fdiv (n * n)) (coefficient * n)
      else
        sqrtLoop fuel (n + 1) number coefficient
    else
      .ok (number, coefficient)
  | 0, _, number, coefficient => .ok (number, coefficient)

/-- The module-level `sqrt(number)`: strip the largest square divisor,
then build `QuadraticInteger[number](np.array([0, coefficient]))`.
Note that the coefficient array always has shape `(2,)` while the
products tensor of `QuadraticInteger[number]` is 0-dim when the
remaining `number` is 1, in which case the constructor assert fires. -/
def sqrt (number : ℤ) : Res QuadraticInteger := do
  let (r, coefficient) ← sqrtLoop (number.natAbs + 2) 2 number 1
  QImk (mkProducts [r]) [0, coefficient]

/-!  tiling.py

The tiling-graph layer is modelled twice.

`QuadraticRational` defines `__eq__` (quadratic_rational.py line 268)
but no `__hash__`, so Python 3 sets `__hash__ = None` on the class and
its instances are unhashable.  `Point.__hash__` computes
`hash((self.x, self.y))`, which hashes the two `QuadraticRational`
coordinates and therefore raises
`TypeError: unhashable type: 'QuadraticRational'`; the `__hash__`
methods of `Edge` and `Tile` sum vertex hashes and raise likewise.
Every dictionary or set operation keyed by a `Point`, `Edge` or `Tile`
hashes its key before anything else, so it raises `TypeError` — even
on an empty dictionary.  The definitions without a `Spec` suffix
(`populateData`, `buildNewTile`, `createTiles`, `seedState`,
`runCreateTiles`) model the committed source faithfully: each hashes
its first key and aborts with `TypeError` exactly where the source
does, so `Tiling.__init__` never completes and no vertex, edge, tile
or colour is ever registered.

The definitions with a `Spec` suffix, marked `Modelled from the
spec:`, model the value-keyed canonical tables that the specification
describes (dictionary and set membership resolved by the classes'
`__eq__`); this is what the source would compute if its keys were
hashable, i.e. the missing piece they supply is a working `__hash__`
for the `QuadraticRational` components of the keys.  They are used
only as evidence of the spec's intent in the claim theorems.
-/

/-- Model of `Point` (and its subclass `Vertex`): three `QuadraticRational`
coordinates (the constructor applies `QuadraticRational.convert`,
which is the identity on coordinates that are already
`QuadraticRational`, the only case arising in this development). -/
structure Point where
  x : QuadraticRational
  y : QuadraticRational
  z : QuadraticRational
  deriving DecidableEq, Repr

/-- Model of `Point.__eq__` (also `Vertex` equality): compares `x` and `y`
only; `z` is ignored. -/
def Pbeq (a b : Point) : Bool :=
  QRbeq a.x b.x && QRbeq a.y b.y

/-- Multiplication of a `QuadraticRational` by a `QuadraticInteger`
(`QuadraticRational.__mul__` after `convert`). -/
def QRmulQI (a : QuadraticRational) (b : QuadraticInteger) : Res QuadraticRational := do
  let bq ← QRmk (.qi b) (.int 1)
  QRmul a bq

/-- Multiplication of a plain integer by a `QuadraticRational`
(`QuadraticRational.__rmul__` after `convert`). -/
def intMulQR (n : ℤ) (a : QuadraticRational) : Res QuadraticRational := do
  let nq ← QRmk (.int n) (.int 1)
  QRmul nq a

/-- Model of `Line`: dual coefficients of a geodesic. -/
structure Line where
  x : QuadraticRational
  y : QuadraticRational
  z : QuadraticRational
  deriving DecidableEq, Repr

/-- Model of `Line.norm`: `(self.x ** 2 + self.y ** 2) * sqrt(2) - self.z ** 2`. -/
def Line.norm (l : Line) : Res QuadraticRational := do
  let x2 ← QRpow l.x 2
  let y2 ← QRpow l.y 2
  let s ← QRadd x2 y2
  let s2 ← sqrt 2
  let t ← QRmulQI s s2
  let z2 ← QRpow l.z 2
  QRsub t z2

/-- Model of `Line.product(point)`:
`self.z * point.z - (self.x * point.x + self.y * point.y) * sqrt(2)`. -/
def Line.product (l : Line) (p : Point) : Res QuadraticRational := do
  let zz ← QRmul l.z p.z
  let xx ← QRmul l.x p.x
  let yy ← QRmul l.y p.y
  let s ← QRadd xx yy
  let s2 ← sqrt 2
  let t ← QRmulQI s s2
  QRsub zz t

/-- Model of `Line.from_points`: the geodesic through two points (a hyperbolic
cross product). -/
def Line.fromPoints (p1 p2 : Point) : Res Line := do
  let x ← do
    let a ← QRmul p1.y p2.z
    let b ← QRmul p1.z p2.y
    QRsub a b
  let y ← do
    let a ← QRmul p1.z p2.x
    let b ← QRmul p1.x p2.z
    QRsub a b
  let z ← do
    let a ← QRmul p1.y p2.x
    let b ← QRmul p1.x p2.y
    let d ← QRsub a b
    let s2 ← sqrt 2
    QRmulQI d s2
  .ok ⟨x, y, z⟩

/-- Model of `Line.reflection(point)`: `factor = self.product(point) / self.norm`;
the reflected point is `point + 2 * l * factor` coordinatewise.  The
source performs no norm check before dividing. -/
def Line.reflection (l : Line) (p : Point) : Res Point := do
  let pr ← l.product p
  let n ← l.norm
  let factor ← QRdiv pr (.qr n)
  let x ← do
    let t ← intMulQR 2 l.x
    let t2 ← QRmul t factor
    QRadd p.x t2
  let y ← do
    let t ← intMulQR 2 l.y
    let t2 ← QRmul t factor
    QRadd p.y t2
  let z ← do
    let t ← intMulQR 2 l.z
    let t2 ← QRmul t factor
    QRadd p.z t2
  .ok ⟨x, y, z⟩

/-- Model of `cosh_distance(point_1, point_2)`:
`p1.z * p2.z - (p1.x * p2.x + p1.y * p2.y) * sqrt(2)`. -/
def cosh_distance (p1 p2 : Point) : Res QuadraticRational := do
  let zz ← QRmul p1.z p2.z
  let xx ← QRmul p1.x p2.x
  let yy ← QRmul p1.y p2.y
  let s ← QRadd xx yy
  let s2 ← sqrt 2
  let t ← QRmulQI s s2
  QRsub zz t

/-- Membership of a point in a list of points under `Point.__eq__`,
i.e. `(x, y)` only (the identity notion of the spec's canonical
tables; a real Python set membership would hash first and raise, see
`pointHash` below). -/
def memP (l : List Point) (v : Point) : Bool :=
  l.any (fun w => Pbeq w v)

/-- Modelled from the spec: a Python `set(...)` built from a list of points,
read as deduplication by `Point.__eq__` keeping first occurrences
(the source's actual set construction would raise `TypeError` on the
unhashable points; Python set iteration order is unspecified, and
every use in the modelled runs either produces a singleton or feeds
an order-insensitive consumer). -/
def dedupPSpec (l : List Point) : List Point :=
  l.foldl (fun acc v => if memP acc v then acc else acc ++ [v]) []

/-- Set inclusion of point lists under `Point.__eq__`. -/
def subsetP (l1 l2 : List Point) : Bool :=
  l1.all (fun a => memP l2 a)

/-- Model of `Edge`: a pair of vertices. -/
structure Edge where
  vertex_1 : Point
  vertex_2 : Point
  deriving DecidableEq, Repr

/-- Model of `Edge.__eq__` read structurally: equality of the vertex
pairs as unordered pairs under `Point.__eq__` (the source compares the
Python sets `self.vertices`, whose construction would itself raise
`TypeError` on the unhashable vertices; only the spec-modelled layer
ever compares edges). -/
def Ebeq (a b : Edge) : Bool :=
  subsetP [a.vertex_1, a.vertex_2] [b.vertex_1, b.vertex_2] &&
    subsetP [b.vertex_1, b.vertex_2] [a.vertex_1, a.vertex_2]

/-- Model of `Tile`: a triple of vertices. -/
structure Tile where
  vertex_1 : Point
  vertex_2 : Point
  vertex_3 : Point
  deriving DecidableEq, Repr

/-- The list underlying the Python set `Tile.vertices`. -/
def Tile.vertexList (t : Tile) : List Point :=
  [t.vertex_1, t.vertex_2, t.vertex_3]

/-- Model of `Tile.__eq__` read structurally: equality of the vertex
triples as unordered sets under `Point.__eq__` (the source compares
the Python sets `self.vertices`; see `Ebeq`). -/
def Tbeq (a b : Tile) : Bool :=
  subsetP a.vertexList b.vertexList && subsetP b.vertexList a.vertexList

/-- Python hashing of a `QuadraticRational`.  The class defines
`__eq__` (quadratic_rational.py line 268) but no `__hash__`, so Python
3 sets `__hash__ = None` on the class, and every attempt to hash an
instance raises `TypeError: unhashable type: 'QuadraticRational'`. -/
def QRhash (_ : QuadraticRational) : Res ℤ := .error .typeError

/-- Model of `Point.__hash__` (tiling.py lines 34-40):
`hash((self.x, self.y))` hashes the tuple, which hashes the two
`QuadraticRational` components first and therefore always raises
`TypeError`; the tuple-combination value in the `.ok` branch is never
reached. -/
def pointHash (p : Point) : Res ℤ :=
  match QRhash p.x, QRhash p.y with
  | .ok h1, .ok h2 => .ok (h1 + h2)
  | .error e, _ => .error e
  | .ok _, .error e => .error e

/-- Model of `Edge.__hash__` (tiling.py lines 147-148):
`hash(self.vertex_1) + hash(self.vertex_2)` (always raises
`TypeError`, see `pointHash`). -/
def edgeHash (e : Edge) : Res ℤ :=
  match pointHash e.vertex_1, pointHash e.vertex_2 with
  | .ok h1, .ok h2 => .ok (h1 + h2)
  | .error er, _ => .error er
  | .ok _, .error er => .error er

/-- Model of `Tile.__hash__` (tiling.py lines 186-187): the sum of the
three vertex hashes (always raises `TypeError`, see `pointHash`). -/
def tileHash (t : Tile) : Res ℤ :=
  match pointHash t.vertex_1, pointHash t.vertex_2, pointHash t.vertex_3 with
  | .ok h1, .ok h2, .ok h3 => .ok (h1 + h2 + h3)
  | .error er, _, _ => .error er
  | .ok _, .error er, _ => .error er
  | .ok _, .ok _, .error er => .error er

/-- The state of a `Tiling` object: the canonical vertex/edge/tile
dictionaries (each mapping a key to itself, hence modelled as
insertion-ordered lists of canonical representatives), the
edge-to-incident-tiles map, both colour maps, and the current
boundary.  The `_colour_values` list of SVG colour strings is
rendering-only and not modelled.  In the committed source these
dictionaries can never gain an entry (their keys are unhashable, see
`pointHash`): the faithful layer aborts while every table is still
empty, and the list-of-representatives reading is exercised only by
the spec-modelled value-keyed layer. -/
structure TilingState where
  vertices : List Point
  edges : List Edge
  tiles : List Tile
  edgesToTiles : List (Edge × List Tile)
  tilesToColours : List (Tile × ℕ)
  verticesToColours : List (Point × ℕ)
  boundary : List Point
  /-- Ghost instrumentation, not a field of the Python object: the
  largest size ever seen for the Python set
  `self._edges_to_tiles[edge]` at the `tuple(...)[0]` pick in
  `_build_new_tile`.  Python set iteration order is unspecified, and
  this model picks the first-inserted element; a recorded maximum of 1
  certifies that every pick was from a singleton, so the modelled run
  does not depend on that order. -/
  maxInnerTiles : ℕ
  /-- Ghost instrumentation: the largest size ever seen for the set
  `inner_tile.vertices - {vertex_1, vertex_2}` at its `tuple(...)[0]`
  pick in `_build_new_tile`. -/
  maxInnerCands : ℕ
  deriving Repr

/-- The outcome of running a `Tiling` method: a result or a raised
exception, together with the state `self` has at that moment (an
exception escapes with the state it had when raised).  The state
machine is written first-order (explicit state passing, no monad
transformers) so that the kernel can evaluate runs of the embedded
program. -/
abbrev MRes (α : Type) : Type := Except PyErr α × TilingState

/-- Modelled from the spec: dictionary lookup `self._edges[edge]` (`None` when absent; a
Python `KeyError` at the use sites). -/
def findEdgeSpec (st : TilingState) (e : Edge) : Option Edge :=
  st.edges.find? (fun d => Ebeq d e)

/-- Modelled from the spec: dictionary lookup `self._edges_to_tiles[edge]`. -/
def findEdgeTilesSpec (st : TilingState) (e : Edge) : Option (List Tile) :=
  (st.edgesToTiles.find? (fun p => Ebeq p.1 e)).map (fun p => p.2)

/-- Modelled from the spec: dictionary lookup `self._vertices_to_colours[vertex]`. -/
def findVertexColourSpec (st : TilingState) (v : Point) : Option ℕ :=
  (st.verticesToColours.find? (fun p => Pbeq p.1 v)).map (fun p => p.2)

/-- Modelled from the spec: dictionary lookup `self._tiles_to_colours[tile]`. -/
def findTileColourSpec (st : TilingState) (t : Tile) : Option ℕ :=
  (st.tilesToColours.find? (fun p => Tbeq p.1 t)).map (fun p => p.2)

/-- Modelled from the spec: dictionary assignment `self._vertices_to_colours[vertex] = c`:
replaces the value at an existing equal key (keeping the stored key),
otherwise appends a new entry. -/
def setVertexColourSpec (st : TilingState) (v : Point) (c : ℕ) : TilingState :=
  { st with verticesToColours :=
      if st.verticesToColours.any (fun p => Pbeq p.1 v) then
        st.verticesToColours.map (fun (p : Point × ℕ) => if Pbeq p.1 v then (p.1, c) else p)
      else
        st.verticesToColours ++ [(v, c)] }

/-- Modelled from the spec: dictionary assignment `self._tiles_to_colours[tile] = c`. -/
def setTileColourSpec (st : TilingState) (t : Tile) (c : ℕ) : TilingState :=
  { st with tilesToColours :=
      if st.tilesToColours.any (fun p => Tbeq p.1 t) then
        st.tilesToColours.map (fun (p : Tile × ℕ) => if Tbeq p.1 t then (p.1, c) else p)
      else
        st.tilesToColours ++ [(t, c)] }

/-- Modelled from the spec: `Tiling._add_vertex`: register the vertex unless an equal one
(same `(x, y)`) is already present, and return the stored
representative. -/
def addVertexSpec (st : TilingState) (v : Point) : Point × TilingState :=
  match st.vertices.find? (fun w => Pbeq w v) with
  | some w => (w, st)
  | none => (v, { st with vertices := st.vertices ++ [v] })

/-- Modelled from the spec: `Tiling._add_edge`: register the edge (with an empty incident-tile
set) unless an equal one is already present. -/
def addEdgeSpec (st : TilingState) (e : Edge) : TilingState :=
  if st.edges.any (fun d => Ebeq d e) then st
  else
    { st with
      edges := st.edges ++ [e]
      edgesToTiles := st.edgesToTiles ++ [(e, [])] }

/-- Modelled from the spec: add a tile to the incident-tile set of an edge
(`self._edges_to_tiles[edge].add(tile)`; a Python set add is a no-op
when an equal tile is present). -/
def addTileToEdgeSpec (st : TilingState) (e : Edge) (t : Tile) : MRes Unit :=
  if (st.edgesToTiles.any (fun p => Ebeq p.1 e)) then
    (.ok (), { st with edgesToTiles :=
      st.edgesToTiles.map (fun (p : Edge × List Tile) =>
        if Ebeq p.1 e then (p.1, if p.2.any (fun u => Tbeq u t) then p.2 else p.2 ++ [t])
        else p) })
  else (.error .keyError, st)

/-- Modelled from the spec: `Tiling._add_tile`: register the tile if new, then add the stored
representative to the incident-tile sets of its three edges (looked up
in `self._edges`, raising `KeyError` when absent) and return it. -/
def addTileSpec (st : TilingState) (t : Tile) : MRes Tile :=
  let st1 := if st.tiles.any (fun u => Tbeq u t) then st
             else { st with tiles := st.tiles ++ [t] }
  match st1.tiles.find? (fun u => Tbeq u t) with
  | none => (.error .keyError, st1)
  | some tile =>
    match findEdgeSpec st1 ⟨t.vertex_2, t.vertex_3⟩ with
    | none => (.error .keyError, st1)
    | some edge1 =>
      match findEdgeSpec st1 ⟨t.vertex_3, t.vertex_1⟩ with
      | none => (.error .keyError, st1)
      | some edge2 =>
        match findEdgeSpec st1 ⟨t.vertex_1, t.vertex_2⟩ with
        | none => (.error .keyError, st1)
        | some edge3 =>
          match addTileToEdgeSpec st1 edge1 tile with
          | (.error e, st2) => (.error e, st2)
          | (.ok _, st2) =>
            match addTileToEdgeSpec st2 edge2 tile with
            | (.error e, st3) => (.error e, st3)
            | (.ok _, st3) =>
              match addTileToEdgeSpec st3 edge3 tile with
              | (.error e, st4) => (.error e, st4)
              | (.ok _, st4) => (.ok tile, st4)

/-- Modelled from the spec: `Tiling._populate_data` for one boundary vertex: register the
vertex, the opposite edge (`Edge(*tuple(set(boundary) - {vertex}))`)
and the vertex colour `index + 1`. -/
def populateVertexSpec (st : TilingState) (index : ℕ) (v : Point) : MRes Unit :=
  let st1 := { st with vertices := st.vertices ++ [v] }
  match (dedupPSpec st1.boundary).filter (fun w => !(Pbeq w v)) with
  | [a, b] =>
      let st2 := { st1 with edges := st1.edges ++ [Edge.mk a b] }
      (.ok (), setVertexColourSpec st2 v (index + 1))
  | _ => (.error .typeError, st1)

/-- Modelled from the spec: `Tiling.__init__` followed by `Tiling._populate_data`: start from
the boundary `[v1, v2, v3]` and empty tables, register the three
vertices (colours 1, 2, 3), the three edges, the base tile (colour 0)
and point every edge's incident-tile set at the base tile. -/
def populateDataSpec (v1 v2 v3 : Point) : MRes Unit :=
  let st0 := TilingState.mk [] [] [] [] [] [] [v1, v2, v3] 0 0
  match populateVertexSpec st0 0 v1 with
  | (.error e, st) => (.error e, st)
  | (.ok _, st1) =>
    match populateVertexSpec st1 1 v2 with
    | (.error e, st) => (.error e, st)
    | (.ok _, st2) =>
      match populateVertexSpec st2 2 v3 with
      | (.error e, st) => (.error e, st)
      | (.ok _, st3) =>
        let tile := Tile.mk v1 v2 v3
        let st4 := { st3 with tiles := st3.tiles ++ [tile] }
        let st5 := setTileColourSpec st4 tile 0
        (.ok (), { st5 with edgesToTiles := st5.edges.map (fun e => (e, [tile])) })

/-- Modelled from the spec: the list underlying the Python set
`inner_tile.vertices - {vertex_1, vertex_2}` of `_build_new_tile`. -/
def innerCandsSpec (innerTile : Tile) (v1 v2 : Point) : List Point :=
  (dedupPSpec innerTile.vertexList).filter (fun w => !(Pbeq w v1) && !(Pbeq w v2))

/-- Modelled from the spec: the value-level prefix of `Tiling._build_new_tile` (source lines
232-237): look up the edge `(vertex_1, vertex_2)` and its first
incident tile, take the tile's remaining vertex, and reflect it across
the line through `vertex_1` and `vertex_2`.  This is the reflected
candidate vertex before deduplication; no state is modified. -/
def buildCandidateSpec (st : TilingState) (v1 v2 : Point) : Res Point :=
  match findEdgeSpec st ⟨v1, v2⟩ with
  | none => .error .keyError
  | some edge =>
    match findEdgeTilesSpec st edge with
    | none => .error .keyError
    | some tl =>
      match tl.head? with
      | none => .error .indexError
      | some innerTile =>
        match (innerCandsSpec innerTile v1 v2).head? with
        | none => .error .indexError
        | some innerVertex =>
          match Line.fromPoints v1 v2 with
          | .error e => .error e
          | .ok line => line.reflection innerVertex

/-- Modelled from the spec: the trailing statements of `Tiling._build_new_tile` (source lines
241-249), from the two `_add_edge` calls onward, with the
deduplicated `reflected_vertex` already in hand: register the two new
edges and the new tile, propagate the colours, and return the
reflected vertex. -/
def buildRestSpec (st1 : TilingState) (v1 v2 reflected innerVertex : Point)
    (innerTile : Tile) : MRes Point :=
  let st2 := addEdgeSpec st1 ⟨v1, reflected⟩
  let st3 := addEdgeSpec st2 ⟨v2, reflected⟩
  match addTileSpec st3 ⟨v1, reflected, v2⟩ with
  | (.error e, st4) => (.error e, st4)
  | (.ok newTile, st4) =>
    match findVertexColourSpec st4 innerVertex with
    | none => (.error .keyError, st4)
    | some ci =>
      match findTileColourSpec st4 innerTile with
      | none => (.error .keyError, st4)
      | some ct =>
        let st5 := setVertexColourSpec st4 reflected ci
        let st6 := setTileColourSpec st5 newTile (Nat.xor ci ct)
        (.ok reflected, st6)

/-- Modelled from the spec: `Tiling._build_new_tile(vertex_1, vertex_2)`: look up the edge and
its (unique) incident tile, reflect the tile's third vertex across the
line through `vertex_1` and `vertex_2`, deduplicate the reflected
vertex (`_add_vertex`), and finish with `buildRestSpec` (the two
`_add_edge` calls, `_add_tile` and the colour propagation
`colour(new_vertex) = colour(inner_vertex)`,
`colour(new_tile) = colour(inner_vertex) XOR colour(inner_tile)`).
The two ghost maxima of `TilingState` are updated here; they do not
influence anything else. -/
def buildNewTileSpec (st : TilingState) (v1 v2 : Point) : MRes Point :=
  match findEdgeSpec st ⟨v1, v2⟩ with
  | none => (.error .keyError, st)
  | some edge =>
    match findEdgeTilesSpec st edge with
    | none => (.error .keyError, st)
    | some tl =>
      match tl.head? with
      | none => (.error .indexError, st)
      | some innerTile =>
        match (innerCandsSpec innerTile v1 v2).head? with
        | none => (.error .indexError, st)
        | some innerVertex =>
          match Line.fromPoints v1 v2 with
          | .error e => (.error e, st)
          | .ok line =>
            match line.reflection innerVertex with
            | .error e => (.error e, st)
            | .ok reflected0 =>
              let st0 := { st with
                maxInnerTiles := max st.maxInnerTiles tl.length
                maxInnerCands := max st.maxInnerCands (innerCandsSpec innerTile v1 v2).length }
              let (reflected, st1) := addVertexSpec st0 reflected0
              buildRestSpec st1 v1 v2 reflected innerVertex innerTile

/-- Modelled from the spec: the first `_build_new_tile` call of a positive-depth
`create_tiles` layer: `self._build_new_tile(self._boundary[0],
self._boundary[-1])` (raising `IndexError` on an empty boundary). -/
def buildFirstTileSpec (st : TilingState) : MRes Point :=
  match st.boundary.head? with
  | none => (.error .indexError, st)
  | some first =>
    match st.boundary.getLast? with
    | none => (.error .indexError, st)
    | some lastv => buildNewTileSpec st first lastv

/-- Modelled from the spec: `Tiling.create_tiles(depth)` following the source
text over the value-keyed tables.  At depth 0
it only calls `_save_data` (file persistence, an excluded external
collaborator, modelled as a no-op).  At positive depth it recurses,
builds one tile across the boundary ends, and then evaluates the
diagnostic tile count
`(3 * sqrt(3) * ((2 + sqrt(3)) ** depth - (2 - sqrt(3)) ** depth)).as_int()`:
`2 + sqrt(3)` is a `QuadraticInteger` and the class defines no
`__pow__`, so the `**` raises `TypeError` before the boundary walk
starts (the successfully evaluated prefix `3 * sqrt(3)` and
`2 + sqrt(3)` of that expression is reproduced here). -/
def createTilesSpec : ℕ → TilingState → MRes Unit
  | 0, st => (.ok (), st)
  | depth + 1, st =>
    match createTilesSpec depth st with
    | (.error e, st1) => (.error e, st1)
    | (.ok _, st1) =>
      match buildFirstTileSpec st1 with
      | (.error e, st2) => (.error e, st2)
      | (.ok _, st2) =>
        match sqrt 3 with
        | .error e => (.error e, st2)
        | .ok s3 =>
          match IntOrQI.mulQI (.int 3) s3 with
          | .error e => (.error e, st2)
          | .ok _ =>
            match QIadd (QIconvert 2) s3 with
            | .error e => (.error e, st2)
            | .ok _ => (.error .typeError, st2)

/-- Modelled from the spec: the `while True` boundary walk of `create_tiles` (reached only if
the diagnostic tile count is not evaluated): build a tile between the
last new-boundary vertex and the current old-boundary vertex
(`self._boundary[index]`); advance along the old boundary when the new
vertex lies on it, stop when the new vertex closes the new rim, and
append it otherwise. -/
def walkLoopSpec : ℕ → TilingState → List Point → ℕ → MRes (List Point)
  | fuel + 1, st, newBoundary, index =>
    (match newBoundary.getLast? with
     | none => (.error .indexError, st)
     | some lastNB =>
       match st.boundary.get? index with
       | none => (.error .indexError, st)
       | some bv =>
         match buildNewTileSpec st lastNB bv with
         | (.error e, st1) => (.error e, st1)
         | (.ok v, st1) =>
           if memP st1.boundary v then
             walkLoopSpec fuel st1 newBoundary (index + 1)
           else if memP newBoundary v then
             (.ok newBoundary, st1)
           else
             walkLoopSpec fuel st1 (newBoundary ++ [v]) index)
  | 0, st, _, _ => (.error .nonTermination, st)

/-- Modelled from the spec: `create_tiles` with the two excluded-collaborator concerns
(persistence in `_save_data` and the progress logging, including the
`TypeError`-raising diagnostic tile-count expression) elided: the pure
graph-growing boundary walk that the specification describes.  Used to
check the specified behaviour that the committed diagnostic line
prevents from being reached. -/
def createTilesWalkSpec : ℕ → ℕ → TilingState → MRes Unit
  | _, 0, st => (.ok (), st)
  | fuel, depth + 1, st =>
    match createTilesWalkSpec fuel depth st with
    | (.error e, st1) => (.error e, st1)
    | (.ok _, st1) =>
      match buildFirstTileSpec st1 with
      | (.error e, st2) => (.error e, st2)
      | (.ok v, st2) =>
        match walkLoopSpec fuel st2 [v] 0 with
        | (.error e, st3) => (.error e, st3)
        | (.ok nb, st3) => (.ok (), { st3 with boundary := nb })

/-- Model of `Tiling.__init__` followed by `Tiling._populate_data` as
the committed source executes them: the six dictionaries are created
empty and the boundary `[v1, v2, v3]` is stored, then the first
statement of the population loop, `self._vertices[vertex] = vertex`
(tiling.py line 216), hashes its `Point` key and raises `TypeError`
(see `pointHash`), so `__init__` never completes and every table is
left empty.  The `.ok` branch — what a hash-consistent dictionary
keyed by these points would do, namely the value-keyed population
`populateDataSpec` — is dead code, since `pointHash` always raises. -/
def populateData (v1 v2 v3 : Point) : MRes Unit :=
  let st0 := TilingState.mk [] [] [] [] [] [] [v1, v2, v3] 0 0
  match pointHash v1 with
  | .error e => (.error e, st0)
  | .ok _ => populateDataSpec v1 v2 v3

/-- Model of `Tiling._build_new_tile(vertex_1, vertex_2)` as the
committed source executes it: its first statement
`self._edges[Edge(vertex_1, vertex_2)]` (tiling.py line 232) hashes
the `Edge` key — `hash(vertex_1) + hash(vertex_2)` on unhashable
points — and raises `TypeError` before any candidate vertex is
computed or any table is touched.  The `.ok` branch is the dead
value-keyed behaviour `buildNewTileSpec` (see `populateData`). -/
def buildNewTile (st : TilingState) (v1 v2 : Point) : MRes Point :=
  match edgeHash ⟨v1, v2⟩ with
  | .error e => (.error e, st)
  | .ok _ => buildNewTileSpec st v1 v2

/-- The first `_build_new_tile` call of a positive-depth
`create_tiles` layer on the faithful `buildNewTile`:
`self._build_new_tile(self._boundary[0], self._boundary[-1])`
(raising `IndexError` on an empty boundary). -/
def buildFirstTile (st : TilingState) : MRes Point :=
  match st.boundary.head? with
  | none => (.error .indexError, st)
  | some first =>
    match st.boundary.getLast? with
    | none => (.error .indexError, st)
    | some lastv => buildNewTile st first lastv

/-- Model of `Tiling.create_tiles(depth)` on the faithful operations.
At depth 0 it only calls `_save_data`, which iterates
`self._tiles_to_colours.items()` (no hashing) and writes a file (an
excluded external collaborator, modelled as a no-op).  At positive
depth it recurses and then calls
`_build_new_tile(boundary[0], boundary[-1])`, which raises `TypeError`
at its first edge lookup; the diagnostic tile-count tail of the
source (itself a `TypeError`, no `QuadraticInteger.__pow__`) is kept
for structural fidelity but is never reached. -/
def createTiles : ℕ → TilingState → MRes Unit
  | 0, st => (.ok (), st)
  | depth + 1, st =>
    match createTiles depth st with
    | (.error e, st1) => (.error e, st1)
    | (.ok _, st1) =>
      match buildFirstTile st1 with
      | (.error e, st2) => (.error e, st2)
      | (.ok _, st2) =>
        match sqrt 3 with
        | .error e => (.error e, st2)
        | .ok s3 =>
          match IntOrQI.mulQI (.int 3) s3 with
          | .error e => (.error e, st2)
          | .ok _ =>
            match QIadd (QIconvert 2) s3 with
            | .error e => (.error e, st2)
            | .ok _ => (.error .typeError, st2)

/-!  create_tiles.py  -/

/-- The three seed vertices of `create_tiles.main()`:
`Vertex(0 * sqrt(2) / 1, sqrt(2) / sqrt(3), (sqrt(2) + 1) / sqrt(3))`,
`Vertex(-sqrt(2) / 2, -1 / sqrt(6), (sqrt(2) + 1) / sqrt(3))`,
`Vertex(sqrt(2) / 2, -1 / sqrt(6), (sqrt(2) + 1) / sqrt(3))`. -/
def seedPoints : Res (Point × Point × Point) := do
  let s2 ← sqrt 2
  let s3 ← sqrt 3
  let s6 ← sqrt 6
  let znum ← QImul (QIconvert 0) s2
  let x1 ← QRmk (.qi znum) (.int 1)
  let y1 ← QRmk (.qi s2) (.qi s3)
  let znum2 ← QIadd s2 (QIconvert 1)
  let z1 ← QRmk (.qi znum2) (.qi s3)
  let x2 ← QRmk (.qi (QIneg s2)) (.int 2)
  let y2 ← QRmk (.int (-1)) (.qi s6)
  let x3 ← QRmk (.qi s2) (.int 2)
  .ok (⟨x1, y1, z1⟩, ⟨x2, y2, z1⟩, ⟨x3, y2, z1⟩)

/-- Modelled from the spec: the state after `Tiling(point_1, point_2, point_3)` on the seed
vertices (`__init__` runs `_populate_data`); the dummy fallback state
for the (never occurring) failure of the seed construction is empty. -/
def seedStateSpec : MRes Unit :=
  match seedPoints with
  | .error e => (.error e, TilingState.mk [] [] [] [] [] [] [] 0 0)
  | .ok (v1, v2, v3) => populateDataSpec v1 v2 v3

/-- Modelled from the spec: run `Tiling(...)` followed by `create_tiles(depth)` on the seed
vertices, returning the outcome together with the final (or
abort-time) state. -/
def runCreateTilesSpec (depth : ℕ) : MRes Unit :=
  match seedStateSpec with
  | (.error e, st) => (.error e, st)
  | (.ok _, st) => createTilesSpec depth st

/-- Modelled from the spec: run `Tiling(...)` followed by the diagnostics-free walk
`createTilesWalkSpec` on the seed vertices. -/
def runCreateTilesWalkSpec (depth : ℕ) : MRes Unit :=
  match seedStateSpec with
  | (.error e, st) => (.error e, st)
  | (.ok _, st) => createTilesWalkSpec 100000 depth st

/-- The state after `Tiling(point_1, point_2, point_3)` on the seed
vertices as the committed program computes it: `__init__` raises
`TypeError` at the first dictionary insert of `_populate_data` (see
`populateData`), leaving every table empty.  The dummy fallback state
for the (never occurring) failure of the seed construction is
empty. -/
def seedState : MRes Unit :=
  match seedPoints with
  | .error e => (.error e, TilingState.mk [] [] [] [] [] [] [] 0 0)
  | .ok (v1, v2, v3) => populateData v1 v2 v3

/-- Run `Tiling(...)` followed by `create_tiles(depth)` on the seed
vertices as the committed program does: the constructor raises
`TypeError` before `create_tiles` is ever entered, at every depth. -/
def runCreateTiles (depth : ℕ) : MRes Unit :=
  match seedState with
  | (.error e, st) => (.error e, st)
  | (.ok _, st) => createTiles depth st

/-!  Checkers used by the claim theorems  -/

/-- The code-level comparison
`cosh_distance(edge.vertex_1, edge.vertex_2) == sqrt(2) + 1`
(`False` when any step raises). -/
def coshEdgeOk (e : Edge) : Bool :=
  match (do
    let c ← cosh_distance e.vertex_1 e.vertex_2
    let s2 ← sqrt 2
    let r ← QIadd s2 (QIconvert 1)
    let rq ← QRmk (.qi r) (.int 1)
    pure (QRbeq c rq) : Res Bool) with
  | .ok b => b
  | .error _ => false

/-- Every edge of the state satisfies the `cosh_distance` invariant. -/
def edgesAllCosh (st : TilingState) : Bool :=
  st.edges.all coshEdgeOk

/-- Faithful-run report at one depth: `Tiling(seed vertices)` followed
by `create_tiles(depth)` ends in `TypeError` with every table still
empty — no vertex, edge, tile or colour was ever registered. -/
def crashReport (depth : ℕ) : Bool :=
  match runCreateTiles depth with
  | (.error .typeError, st) =>
    st.vertices.isEmpty && st.edges.isEmpty && st.tiles.isEmpty &&
    st.edgesToTiles.isEmpty && st.tilesToColours.isEmpty &&
    st.verticesToColours.isEmpty
  | _ => false

/-- The faithful `Tiling(seed vertices)` construction aborts with
`TypeError` while the tile table and both colour tables are still
empty. -/
def initCrashNoColours : Bool :=
  match seedState with
  | (.error .typeError, st) =>
    st.tiles.isEmpty && st.tilesToColours.isEmpty &&
    st.verticesToColours.isEmpty
  | _ => false

/-- Modelled from the spec: summary of a diagnostics-free walk run: whether it succeeded, the
tile, vertex and edge counts, whether every edge satisfies the
`cosh_distance` invariant, and the two ghost maxima (a value of 1 in
both certifies independence from Python set iteration order). -/
def walkReportSpec (depth : ℕ) : Bool × ℕ × ℕ × ℕ × Bool × ℕ × ℕ :=
  match runCreateTilesWalkSpec depth with
  | (r, st) =>
    (match r with | .ok _ => true | .error _ => false,
     st.tiles.length, st.vertices.length, st.edges.length,
     edgesAllCosh st, st.maxInnerTiles, st.maxInnerCands)

/-- Modelled from the spec: the diagnostics-free walk of depth 1, metered to its first five
loop iterations: `_build_new_tile(boundary[0], boundary[-1])` followed
by `walkLoopSpec` with fuel 5 on the seed state.  Running out of fuel
(`nonTermination`) certifies that the rim has not closed within those
five iterations, while the graph already holds the tiles built so
far. -/
def walkProbeSpec : MRes (List Point) :=
  match seedStateSpec with
  | (.error e, st) => (.error e, st)
  | (.ok _, st) =>
    match buildFirstTileSpec st with
    | (.error e, st1) => (.error e, st1)
    | (.ok v, st1) => walkLoopSpec 5 st1 [v] 0

/-- Modelled from the spec: summary of `walkProbeSpec`: whether the walk was still open (fuel ran
out before the rim closed), the tile count at that moment, and whether
every edge so far satisfies the `cosh_distance` invariant. -/
def walkProbeReportSpec : Bool × ℕ × Bool :=
  match walkProbeSpec with
  | (r, st) =>
    (match r with | .error .nonTermination => true | _ => false,
     st.tiles.length, edgesAllCosh st)

/-- Model of `sqrt(n) * sqrt(n) == n` as the code computes it (`False` when a
step raises). -/
def sqrtMulSelfEqInt (n : ℤ) : Bool :=
  match (do
    let s ← sqrt n
    let p ← QImul s s
    pure (QIbeq p (QIconvert n)) : Res Bool) with
  | .ok b => b
  | .error _ => false

/-- Modelled from the spec: the graph after `Tiling(point_1, point_2, point_3)` followed by
the three direct `_build_new_tile` calls across the base tile's three
edges `(v2, v3)`, `(v3, v1)` and `(v1, v2)`, together with the three
returned vertices. -/
def threeBuildsSpec : Except PyErr (Point × Point × Point) × TilingState :=
  match seedStateSpec with
  | (.error e, st) => (.error e, st)
  | (.ok _, st) =>
    match st.boundary with
    | [v1, v2, v3] =>
      (match buildNewTileSpec st v2 v3 with
       | (.error e, st1) => (.error e, st1)
       | (.ok r1, st1) =>
         match buildNewTileSpec st1 v3 v1 with
         | (.error e, st2) => (.error e, st2)
         | (.ok r2, st2) =>
           match buildNewTileSpec st2 v1 v2 with
           | (.error e, st3) => (.error e, st3)
           | (.ok r3, st3) => (.ok (r1, r2, r3), st3))
    | _ => (.error .typeError, st)

/-- Modelled from the spec: the colour facts of claim C6 for the state after `threeBuildsSpec`:
the base tile has colour 0; the tile built across `(v2, v3)` has the
colour of `v1`, namely 1; the tile across `(v3, v1)` that of `v2`,
namely 2; the tile across `(v1, v2)` that of `v3`, namely 3. -/
def threeBuildsColoursOkSpec : Bool :=
  match seedStateSpec with
  | (.error _, _) => false
  | (.ok _, st0) =>
    match st0.boundary with
    | [v1, v2, v3] =>
      (match threeBuildsSpec with
       | (.error _, _) => false
       | (.ok (r1, r2, r3), st) =>
         (findTileColourSpec st ⟨v1, v2, v3⟩ == some 0) &&
         (findTileColourSpec st ⟨v2, r1, v3⟩ == some 1) &&
         (findVertexColourSpec st v1 == some 1) &&
         (findTileColourSpec st ⟨v3, r2, v1⟩ == some 2) &&
         (findVertexColourSpec st v2 == some 2) &&
         (findTileColourSpec st ⟨v1, r3, v2⟩ == some 3) &&
         (findVertexColourSpec st v3 == some 3) &&
         (st.tiles.length == 4))
    | _ => false

/-- A point with plain integer coordinates `(x, y, z)` (numerator over
denominator 1 with the trivial radical basis). -/
def intPoint (x y z : ℤ) : Point :=
  ⟨⟨⟨[1], [x]⟩, 1⟩, ⟨⟨[1], [y]⟩, 1⟩, ⟨⟨[1], [z]⟩, 1⟩⟩

/-- The zero `QuadraticRational` (canonical form of `0`). -/
def zeroQR : QuadraticRational := ⟨⟨[1], [0]⟩, 1⟩

/-- The line `Line(0, 0, 0)`, the representable line of norm 0. -/
def zeroLine : Line := ⟨zeroQR, zeroQR, zeroQR⟩

/-- Witness scaffolding for claim C7: four integer points.  Reflecting
`pC = (0, 5, 7)` across the line through `pA = (0, 0, 1)` and
`pB = (1, 0, 1)` (the y-mirror) yields the candidate `(0, -5, 7)`,
whose `(x, y)` equals those of `pD = (0, -5, 99)` while its `z`
differs. -/
def pA : Point := intPoint 0 0 1

/-- Second witness point, see `pA`. -/
def pB : Point := intPoint 1 0 1

/-- Third witness point, see `pA`. -/
def pC : Point := intPoint 0 5 7

/-- Fourth witness point: same `(x, y)` as the reflected candidate of
`pC`, different `z`, see `pA`. -/
def pD : Point := intPoint 0 (-5) 99

/-- The reflected candidate of `pC` across the line through `pA` and
`pB`. -/
def candW : Point := intPoint 0 (-5) 7

/-- The base tile of the witness states for claim C7. -/
def tileW : Tile := ⟨pA, pB, pC⟩

/-- Witness state for claim C7 in which a vertex with the candidate's
`(x, y)` (namely `pD`) is already registered. -/
def stW : TilingState :=
  TilingState.mk [pA, pB, pC, pD]
    [⟨pA, pB⟩, ⟨pA, pC⟩, ⟨pB, pC⟩] [tileW]
    [(⟨pA, pB⟩, [tileW]), (⟨pA, pC⟩, [tileW]), (⟨pB, pC⟩, [tileW])]
    [(tileW, 0)] [(pA, 1), (pB, 2), (pC, 3), (pD, 2)] [pA, pB, pC] 0 0

/-- Witness state for claim C7 with no vertex matching the candidate
(`stW` without `pD`). -/
def stW2 : TilingState :=
  TilingState.mk [pA, pB, pC]
    [⟨pA, pB⟩, ⟨pA, pC⟩, ⟨pB, pC⟩] [tileW]
    [(⟨pA, pB⟩, [tileW]), (⟨pA, pC⟩, [tileW]), (⟨pB, pC⟩, [tileW])]
    [(tileW, 0)] [(pA, 1), (pB, 2), (pC, 3)] [pA, pB, pC] 0 0

/-- The one `QuadraticRational` (canonical form of `1`). -/
def oneQR : QuadraticRational := ⟨⟨[1], [1]⟩, 1⟩

/-- The canonical `QuadraticRational` form of the integer 2. -/
def twoQR : QuadraticRational := ⟨⟨[1], [2]⟩, 1⟩

/-- The canonical `QuadraticRational` form of one half. -/
def halfQR : QuadraticRational := ⟨⟨[1], [1]⟩, 2⟩

/-- The value `QuadraticRational(1, 0)`: the constructor accepts a
zero integer denominator without complaint (`_reduce_fraction` divides
by `gcd(1, 0) = 1`), yielding a denominator-0 rational that compares
unequal to 0. -/
def oneOverZeroQR : QuadraticRational := ⟨⟨[1], [1]⟩, 0⟩

/-- Division round trip `(a / b) * b == a` as the code computes it,
for `a = sqrt(2)/5` and `b = sqrt(3)/7` (`False` when a step raises). -/
def divRoundTripCheck : Bool :=
  match (do
    let s2 ← sqrt 2
    let s3 ← sqrt 3
    let a ← QRmk (.qi s2) (.int 5)
    let b ← QRmk (.qi s3) (.int 7)
    let q ← QRdiv a (.qr b)
    let r ← QRmul q b
    pure (QRbeq r a) : Res Bool) with
  | .ok b => b
  | .error _ => false

/-- Double-reflection checks on the seed triangle: reflecting the
opposite seed vertex twice across the line through two seed vertices
returns it, under the code's `(x, y)` point equality (`False` when a
step raises). -/
def seedInvolutionCheck : Bool :=
  match (do
    let (p1, p2, p3) ← seedPoints
    let l ← Line.fromPoints p1 p2
    let r1 ← l.reflection p3
    let r2 ← l.reflection r1
    let l2 ← Line.fromPoints p2 p3
    let u1 ← l2.reflection p1
    let u2 ← l2.reflection u1
    pure (Pbeq r2 p3 && Pbeq u2 p1) : Res Bool) with
  | .ok b => b
  | .error _ => false

/-- First seed vertex (extracted from `seedPoints`; the fallback for
the never-occurring error case is the origin-like integer point). -/
def seedP1 : Point :=
  match seedPoints with
  | .ok (p, _, _) => p
  | .error _ => intPoint 0 0 0

/-- Second seed vertex, see `seedP1`. -/
def seedP2 : Point :=
  match seedPoints with
  | .ok (_, p, _) => p
  | .error _ => intPoint 0 0 0

/-- Third seed vertex, see `seedP1`. -/
def seedP3 : Point :=
  match seedPoints with
  | .ok (_, _, p) => p
  | .error _ => intPoint 0 0 0

end Hyperbolic

/-!  Theorems  -/

namespace Hyperbolic

set_option maxHeartbeats 10000000 in
/-- Shared evaluation of the metered depth-1 walk probe: after
`_build_new_tile(boundary[0], boundary[-1])` and five iterations of
the boundary-walk loop the rim has not closed, the graph already
contains 7 tiles, and every edge so far satisfies the `cosh_distance`
invariant. -/
theorem walkProbeReportSpec_eval : walkProbeReportSpec = (true, 7, true) := by
  rfl

/-- C1 (code bug): the claim quantifies over every `Edge` ever created
by `initialize` followed by `create_tiles(d)` for depths 0 to 6, but
the committed code creates no `Edge` at any of those depths:
`QuadraticRational` is unhashable (`__eq__` without `__hash__`), so
`Tiling.__init__` raises `TypeError` at the first dictionary insert of
`_populate_data` and `create_tiles` is never entered.  The first
conjunct checks, for every depth 0-6, that the faithful run ends in
`TypeError` with every table — vertices, edges, tiles, both colour
maps — still empty.  The invariant itself is the spec's evident
intent: the second conjunct verifies
`cosh_distance(edge.vertex_1, edge.vertex_2) == sqrt(2) + 1` for every
edge created by the seed triangle and the first six tile
constructions of the spec-modelled depth-1 boundary walk. -/
theorem claim_C1 :
    ((List.range 7).all crashReport) = true ∧
    (walkProbeReportSpec).2.2 = true := by
  refine ⟨by rfl, ?_⟩
  rw [walkProbeReportSpec_eval]

/-- C2: `sqrt(n) * sqrt(n) == n` holds for n in {2, 3, 6, 8, 12, 18},
but `sqrt(1)` and `sqrt(4)` do not succeed: they raise
`AssertionError`, because `sqrt` passes the shape-`(2,)` coefficient
array `[0, coefficient]` to the class `QuadraticInteger[1]`, whose
products tensor is 0-dimensional. -/
theorem claim_C2 :
    sqrt 1 = .error .assertionError ∧
    sqrt 4 = .error .assertionError ∧
    (([2, 3, 6, 8, 12, 18] : List ℤ).all sqrtMulSelfEqInt) = true :=
  ⟨by rfl, by rfl, by rfl⟩

/-- C4: the division round trip `(a / b) * b == a` fails on the code
for a legitimately constructed nonzero divisor:
`b = QuadraticRational(1, 0)` is built by the constructor without any
exception, `b == 0` is `False`, yet for `a = QuadraticRational(1, 1)`
the quotient `a / b` is 0 and `(a / b) * b` raises
`ZeroDivisionError` (the `0 // 0` of `_reduce_fraction`) instead of
equalling `a`. -/
theorem claim_C4 :
    QRconvert (.int 1) = .ok oneQR ∧
    QRmk (.int 1) (.int 0) = .ok oneOverZeroQR ∧
    QRconvert (.int 0) = .ok zeroQR ∧
    QRbeq oneOverZeroQR zeroQR = false ∧
    QRdiv oneQR (.qr oneOverZeroQR) = .ok zeroQR ∧
    (match QRdiv oneQR (.qr oneOverZeroQR) with
     | .ok q => QRmul q oneOverZeroQR
     | .error e => .error e) = .error .zeroDivisionError :=
  ⟨by rfl, by rfl, by rfl, by rfl, by rfl, by rfl⟩

/-- C5 counterexample: already at depth 0 the claim fails on the
committed code.  `Tiling(point_1, point_2, point_3)` itself raises
`TypeError` (the unhashable `Point` key at the first dictionary insert
of `_populate_data`), `create_tiles(0)` is never entered, and the tile
table holds 0 tiles, not the claimed 1. -/
theorem claim_C5_counterexample :
    (runCreateTiles 0).1 = .error .typeError ∧
    (runCreateTiles 0).2.tiles.length = 0 ∧
    ¬ (runCreateTiles 0).2.tiles.length = 1 := by
  refine ⟨by rfl, by rfl, ?_⟩
  rw [show (runCreateTiles 0).2.tiles.length = 0 from by rfl]
  decide

/-- C5 amended: on the committed code, `Tiling(point_1, point_2,
point_3)` itself raises `TypeError` (the unhashable `Point` key at the
first dictionary insert of `_populate_data`), so `create_tiles` is
never entered and the graph holds 0 tiles after attempting depths 0, 1
and 2.  Even over the spec-modelled value-keyed tables the claimed
counts are wrong beyond depth 0: `create_tiles(0)` leaves exactly 1
tile, but `create_tiles(1)` and `create_tiles(2)` abort with
`TypeError` while evaluating the diagnostic tile-count expression
(`(2 + sqrt(3)) ** depth` on a `QuadraticInteger`, which has no
`__pow__`), each leaving exactly 2 tiles; and the diagnostics-free
boundary walk does not stop at 4 tiles either: after its first six
tile constructions at depth 1 the graph already has 7 tiles and the
rim has not closed (the full walk, evaluated with this model, gives 19
tiles at depth 1 and 91 at depth 2, matching the code's own per-layer
formula 18, 72, ...). -/
theorem claim_C5_amended :
    (runCreateTiles 0).1 = .error .typeError ∧
    (runCreateTiles 0).2.tiles.length = 0 ∧
    (runCreateTiles 1).1 = .error .typeError ∧
    (runCreateTiles 1).2.tiles.length = 0 ∧
    (runCreateTiles 2).1 = .error .typeError ∧
    (runCreateTiles 2).2.tiles.length = 0 ∧
    (runCreateTilesSpec 0).1 = .ok () ∧
    (runCreateTilesSpec 0).2.tiles.length = 1 ∧
    (runCreateTilesSpec 1).1 = .error .typeError ∧
    (runCreateTilesSpec 1).2.tiles.length = 2 ∧
    (runCreateTilesSpec 2).1 = .error .typeError ∧
    (runCreateTilesSpec 2).2.tiles.length = 2 ∧
    (walkProbeReportSpec).1 = true ∧
    (walkProbeReportSpec).2.1 = 7 := by
  refine ⟨by rfl, by rfl, by rfl, by rfl, by rfl, by rfl, by rfl, by rfl,
    by rfl, by rfl, by rfl, by rfl, ?_, ?_⟩ <;>
    rw [walkProbeReportSpec_eval]

/-- C6 (code bug): the claim says the base tile is registered with
colour 0 and the three neighbour tiles built across its edges with
colours 1, 2 and 3.  The committed code never registers any tile or
colour: `Tiling(seed vertices)` aborts with `TypeError` (the
unhashable `Point` key at the first dictionary insert of
`_populate_data`) while the tile table and both colour tables are
still empty — the first conjunct.  The colouring scheme is the spec's
evident intent: over the spec-modelled value-keyed tables, the base
tile has colour 0, and the three `_build_new_tile` calls across
`(v2, v3)`, `(v3, v1)` and `(v1, v2)` yield tiles coloured 1, 2 and 3
— the colour of the base-tile vertex opposite the shared edge,
XORed with the base tile's colour 0 — as the second conjunct
verifies. -/
theorem claim_C6 :
    initCrashNoColours = true ∧ threeBuildsColoursOkSpec = true :=
  ⟨by rfl, by rfl⟩

/-- C8: dividing by the zero rational does not raise: `1 / 0`
constructs a `QuadraticRational` with denominator 0 (no exception);
`0 / 0` raises `ZeroDivisionError` (a plain integer `0 // 0` in
`_reduce_fraction`), not a `DivisionByZero` error of its own kind;
division by a nonzero rational constructs the quotient normally
(`1 / 2 == 1/2`). -/
theorem claim_C8 :
    QRdiv oneQR (.qr zeroQR) = .ok ⟨⟨[1], [1]⟩, 0⟩ ∧
    QRdiv zeroQR (.qr zeroQR) = .error .zeroDivisionError ∧
    QRdiv oneQR (.qr twoQR) = .ok halfQR :=
  ⟨by rfl, by rfl, by rfl⟩

/-- C9: the reflection method performs no norm check and the
repository defines no `DegenerateLine` error.  For the representable
norm-zero line `Line(0, 0, 0)` (whose norm the code evaluates to the
zero rational), reflecting any of the three seed vertices, or the
integer point `pC`, raises `ZeroDivisionError` (from `0 // 0` in
`_reduce_fraction` while computing `product / norm`), not a
`DegenerateLine` failure. -/
theorem claim_C9 :
    zeroLine.norm = .ok zeroQR ∧
    zeroLine.reflection seedP1 = .error .zeroDivisionError ∧
    zeroLine.reflection seedP2 = .error .zeroDivisionError ∧
    zeroLine.reflection seedP3 = .error .zeroDivisionError ∧
    zeroLine.reflection pC = .error .zeroDivisionError :=
  ⟨by rfl, by rfl, by rfl, by rfl, by rfl⟩

/-- Assigning a vertex colour leaves the vertex table unchanged. -/
theorem setVertexColourSpec_vertices (st : TilingState) (v : Point) (c : ℕ) :
    (setVertexColourSpec st v c).vertices = st.vertices := rfl

/-- Assigning a tile colour leaves the vertex table unchanged. -/
theorem setTileColourSpec_vertices (st : TilingState) (t : Tile) (c : ℕ) :
    (setTileColourSpec st t c).vertices = st.vertices := rfl

/-- Registering an edge leaves the vertex table unchanged. -/
theorem addEdgeSpec_vertices (st : TilingState) (e : Edge) :
    (addEdgeSpec st e).vertices = st.vertices := by
  unfold addEdgeSpec; split <;> rfl

/-- Adding a tile to an incident-tile set leaves the vertex table
unchanged. -/
theorem addTileToEdgeSpec_vertices (st : TilingState) (e : Edge) (t : Tile) :
    (addTileToEdgeSpec st e t).2.vertices = st.vertices := by
  unfold addTileToEdgeSpec; split <;> rfl

/-- Equation form of `addTileToEdgeSpec_vertices`. -/
theorem addTileToEdgeSpec_snd_vertices (s : TilingState) (e : Edge) (t : Tile)
    (r : Except PyErr Unit) (s2 : TilingState) (h : addTileToEdgeSpec s e t = (r, s2)) :
    s2.vertices = s.vertices := by
  have h2 := addTileToEdgeSpec_vertices s e t
  rw [h] at h2
  exact h2

/-- Registering a tile leaves the vertex table unchanged. -/
theorem addTileSpec_vertices (st : TilingState) (t : Tile) :
    (addTileSpec st t).2.vertices = st.vertices := by
  unfold addTileSpec
  have h1 : (if st.tiles.any (fun u => Tbeq u t) then st
             else { st with tiles := st.tiles ++ [t] }).vertices = st.vertices := by
    split <;> rfl
  generalize hst1 : (if st.tiles.any (fun u => Tbeq u t) then st
             else { st with tiles := st.tiles ++ [t] }) = st1 at h1 ⊢
  cases hf : st1.tiles.find? (fun u => Tbeq u t) with
  | none => simpa [hf] using h1
  | some tile =>
    simp only [hf]
    cases he1 : findEdgeSpec st1 ⟨t.vertex_2, t.vertex_3⟩ with
    | none => simpa using h1
    | some edge1 =>
      simp only []
      cases he2 : findEdgeSpec st1 ⟨t.vertex_3, t.vertex_1⟩ with
      | none => simpa using h1
      | some edge2 =>
        simp only []
        cases he3 : findEdgeSpec st1 ⟨t.vertex_1, t.vertex_2⟩ with
        | none => simpa using h1
        | some edge3 =>
          simp only []
          cases ha1 : addTileToEdgeSpec st1 edge1 tile with
          | mk r1 s2 =>
            have hv2 : s2.vertices = st.vertices :=
              (addTileToEdgeSpec_snd_vertices st1 edge1 tile r1 s2 ha1).trans h1
            cases r1 with
            | error e => simpa using hv2
            | ok u =>
              simp only []
              cases ha2 : addTileToEdgeSpec s2 edge2 tile with
              | mk r2 s3 =>
                have hv3 : s3.vertices = st.vertices :=
                  (addTileToEdgeSpec_snd_vertices s2 edge2 tile r2 s3 ha2).trans hv2
                cases r2 with
                | error e => simpa using hv3
                | ok u2 =>
                  simp only []
                  cases ha3 : addTileToEdgeSpec s3 edge3 tile with
                  | mk r3 s4 =>
                    have hv4 : s4.vertices = st.vertices :=
                      (addTileToEdgeSpec_snd_vertices s3 edge3 tile r3 s4 ha3).trans hv3
                    cases r3 with
                    | error e => simpa using hv4
                    | ok u3 => simpa using hv4



/-- The trailing statements of `_build_new_tile` after `_add_vertex`
leave the vertex table unchanged. -/
theorem buildRestSpec_vertices (s : TilingState) (v1 v2 rf iv : Point) (it : Tile) :
    (buildRestSpec s v1 v2 rf iv it).2.vertices = s.vertices := by
  unfold buildRestSpec
  simp only []
  have h2 : (addEdgeSpec (addEdgeSpec s ⟨v1, rf⟩) ⟨v2, rf⟩).vertices = s.vertices := by
    rw [addEdgeSpec_vertices, addEdgeSpec_vertices]
  generalize hst3 : addEdgeSpec (addEdgeSpec s ⟨v1, rf⟩) ⟨v2, rf⟩ = st3 at h2 ⊢
  cases ha : addTileSpec st3 ⟨v1, rf, v2⟩ with
  | mk r1 s4 =>
    have hv4 : s4.vertices = s.vertices := by
      have h3 := addTileSpec_vertices st3 ⟨v1, rf, v2⟩
      rw [ha] at h3
      exact h3.trans h2
    cases r1 with
    | error e => simpa using hv4
    | ok newTile =>
      simp only []
      cases findVertexColourSpec s4 iv with
      | none => simpa using hv4
      | some ci =>
        simp only []
        cases findTileColourSpec s4 it with
        | none => simpa using hv4
        | some ct => simpa [setTileColourSpec_vertices, setVertexColourSpec_vertices] using hv4

/-- When the trailing statements of `_build_new_tile` succeed, the
returned vertex is the deduplicated reflected vertex they were given. -/
theorem buildRestSpec_fst (s : TilingState) (v1 v2 rf iv : Point) (it : Tile) :
    ∀ r s2, buildRestSpec s v1 v2 rf iv it = (.ok r, s2) → r = rf := by
  unfold buildRestSpec
  intro r s2 h
  simp only [] at h
  split at h
  · simp at h
  · split at h
    · simp at h
    · split at h
      · simp at h
      · injection h with h1 h2
        injection h1 with h3
        exact h3.symm



set_option maxHeartbeats 1600000 in
/-- Dedup behaviour of the spec-modelled `_build_new_tile`: whenever
it computes a reflected candidate vertex, then: if a vertex with
exactly the candidate's `(x, y)` is already in the canonical vertex
table, the call returns that existing vertex and the vertex table does
not grow; and a new vertex (the candidate itself) is registered only
when no `(x, y)`-equal vertex exists. -/
theorem buildNewTileSpec_dedup (st : TilingState) (v1 v2 c : Point)
    (h : buildCandidateSpec st v1 v2 = .ok c) :
    (∀ w, st.vertices.find? (fun u => Pbeq u c) = some w →
      (buildNewTileSpec st v1 v2).2.vertices = st.vertices ∧
      ∀ r st2, buildNewTileSpec st v1 v2 = (.ok r, st2) → r = w) ∧
    (st.vertices.find? (fun u => Pbeq u c) = none →
      (buildNewTileSpec st v1 v2).2.vertices = st.vertices ++ [c]) := by
  unfold buildCandidateSpec at h
  constructor
  · intro w hw
    constructor
    · unfold buildNewTileSpec
      split
      · rfl
      · rename_i edge heq1
        simp only [heq1] at h
        split
        · rfl
        · rename_i tl heq2
          simp only [heq2] at h
          split
          · rfl
          · rename_i innerTile heq3
            simp only [heq3] at h
            split
            · rfl
            · rename_i innerVertex heq4
              simp only [heq4] at h
              split
              · rfl
              · rename_i line heq5
                simp only [heq5] at h
                split
                · rfl
                · rename_i reflected0 heq6
                  simp only [heq6] at h
                  injection h with hc
                  subst hc
                  simp only [addVertexSpec, hw]
                  rw [buildRestSpec_vertices]
    · intro r st2 hbn
      unfold buildNewTileSpec at hbn
      split at hbn
      · simp at hbn
      · rename_i edge heq1
        simp only [heq1] at h
        split at hbn
        · simp at hbn
        · rename_i tl heq2
          simp only [heq2] at h
          split at hbn
          · simp at hbn
          · rename_i innerTile heq3
            simp only [heq3] at h
            split at hbn
            · simp at hbn
            · rename_i innerVertex heq4
              simp only [heq4] at h
              split at hbn
              · simp at hbn
              · rename_i line heq5
                simp only [heq5] at h
                split at hbn
                · simp at hbn
                · rename_i reflected0 heq6
                  simp only [heq6] at h
                  injection h with hc
                  subst hc
                  simp only [addVertexSpec, hw] at hbn
                  exact buildRestSpec_fst _ v1 v2 w innerVertex innerTile r st2 hbn
  · intro hnone
    unfold buildNewTileSpec
    split
    · rename_i heq1
      simp only [heq1] at h
      simp at h
    · rename_i edge heq1
      simp only [heq1] at h
      split
      · rename_i heq2
        simp only [heq2] at h
        simp at h
      · rename_i tl heq2
        simp only [heq2] at h
        split
        · rename_i heq3
          simp only [heq3] at h
          simp at h
        · rename_i innerTile heq3
          simp only [heq3] at h
          split
          · rename_i heq4
            simp only [heq4] at h
            simp at h
          · rename_i innerVertex heq4
            simp only [heq4] at h
            split
            · rename_i e heq5
              simp only [heq5] at h
              simp at h
            · rename_i line heq5
              simp only [heq5] at h
              split
              · rename_i e heq6
                simp only [heq6] at h
                simp at h
              · rename_i reflected0 heq6
                simp only [heq6] at h
                injection h with hc
                subst hc
                simp only [addVertexSpec, hnone]
                rw [buildRestSpec_vertices]



/-- C7 (code bug): the claim describes `_build_new_tile` deduplicating
a computed reflected candidate against the canonical vertex table.
The committed `_build_new_tile` never computes any candidate: its
first statement `self._edges[Edge(vertex_1, vertex_2)]` hashes the
`Edge` key — `hash(vertex_1) + hash(vertex_2)` on unhashable points —
and raises `TypeError` before touching any table, for every state and
every pair of vertices (first conjunct).  The deduplication is the
spec's evident intent: over the spec-modelled value-keyed tables,
whenever the reflected candidate is computed, an `(x, y)`-equal stored
vertex is returned with the vertex table unchanged, and the candidate
is appended only when no such vertex exists (second conjunct). -/
theorem claim_C7 :
    (∀ (st : TilingState) (v1 v2 : Point),
      buildNewTile st v1 v2 = (.error .typeError, st)) ∧
    (∀ (st : TilingState) (v1 v2 c : Point),
      buildCandidateSpec st v1 v2 = .ok c →
      ((∀ w, st.vertices.find? (fun u => Pbeq u c) = some w →
        (buildNewTileSpec st v1 v2).2.vertices = st.vertices ∧
        ∀ r st2, buildNewTileSpec st v1 v2 = (.ok r, st2) → r = w) ∧
       (st.vertices.find? (fun u => Pbeq u c) = none →
        (buildNewTileSpec st v1 v2).2.vertices = st.vertices ++ [c]))) :=
  ⟨fun _ _ _ => rfl, fun st v1 v2 c h => buildNewTileSpec_dedup st v1 v2 c h⟩

/-- Witness for C7: the faithful `_build_new_tile` raises `TypeError`
on the concrete state `stW`; over the spec-modelled tables, in `stW`,
where `pD` has the candidate's `(x, y)` but a different `z`, building
across `(pA, pB)` leaves the vertex table unchanged, while in `stW2`
(the same state without `pD`) the table grows by exactly the
candidate. -/
theorem claim_C7_witness :
    buildNewTile stW pA pB = (.error .typeError, stW) ∧
    (buildNewTileSpec stW pA pB).2.vertices = stW.vertices ∧
    (buildNewTileSpec stW2 pA pB).2.vertices = stW2.vertices ++ [candW] :=
  ⟨claim_C7.1 stW pA pB,
   ((claim_C7.2 stW pA pB candW (by rfl)).1 pD (by rfl)).1,
   (claim_C7.2 stW2 pA pB candW (by rfl)).2 (by rfl)⟩

/-- C10: dividing a `QuadraticRational` by a plain Python integer
always raises `AttributeError`, because `__truediv__` calls the
nonexistent `QuadraticInteger.from_int`; division by a
`QuadraticInteger` divisor (here `sqrt(3)`) succeeds. -/
theorem claim_C10 :
    (∀ (a : QuadraticRational) (n : ℤ), QRdiv a (.int n) = .error .attributeError) ∧
    (match sqrt 3 with
     | .ok s3 => (match QRdiv oneQR (.qi s3) with | .ok _ => true | .error _ => false)
     | .error _ => false) = true :=
  ⟨fun _ _ => rfl, by rfl⟩

/-- Supporting evidence (spot check): for well-formed radical values
`a = sqrt(2)/5`, `b = sqrt(3)/7`, the division round trip
`(a / b) * b == a` holds. -/
theorem divRoundTrip_on_radicals : divRoundTripCheck = true := by
  rfl

/-- Supporting evidence (spot check): double reflection across two of
the seed triangle's edge lines returns the reflected seed vertex. -/
theorem seedInvolution_spot : seedInvolutionCheck = true := by
  rfl

end Hyperbolic
